import Mathlib

/-!
# HoudiniPreset.h : the preset value model

A shallow embedding of `Source/HoudiniEngineEditor/Private/HoudiniPreset.h`.

* Engine types that the header only names (`float`, `FLinearColor`,
  `EHoudiniRampInterpolationType`, `EHoudiniInputType`, `TSoftObjectPtr<UObject>`,
  `FTransform`) are type parameters.
* `TArray<T>` is `List T`, `FString` is `String`, `int` / `int32` is `Int`
  (with the 32-bit range stated where it matters), `TMap<FString, V>` is an
  association list with unique keys.
* The engine string helpers the header calls (`FString::JoinBy`, `FString::Join`,
  `FString::Format`, `FString::FromInt`) are embedded from their engine definitions.
* The bodies of `FHoudiniPresetHelpers` live in `HoudiniPreset.cpp`; the header
  gives their signatures only.  Their bodies are modelled from the specification and
  marked as such.
-/

namespace HoudiniPreset

/-! ## Engine string helpers called by the header -/

/-- Engine `FString::JoinBy(Range, Separator, Proj)`: the engine loop
`for (Element : Range) { if (First) First = false; else Result += Separator;
Result += Proj(Element); }`.  The loop state is the pair `(Result, First)`. -/
def FString.JoinBy {α : Type} (Range : List α) (Separator : String) (Proj : α → String) :
    String :=
  (Range.foldl
    (fun (st : String × Bool) (Element : α) =>
      let Result := if st.2 then st.1 else st.1 ++ Separator
      (Result ++ Proj Element, false))
    ("", true)).1

/-- Engine `FString::Join(Range, Separator)`: the same loop, appending the element itself. -/
def FString.Join (Range : List String) (Separator : String) : String :=
  (Range.foldl
    (fun (st : String × Bool) (Element : String) =>
      let Result := if st.2 then st.1 else st.1 ++ Separator
      (Result ++ Element, false))
    ("", true)).1

/-- Engine `FString::FromInt(int32 Num)`: the decimal numeral of `Num`, with a leading `-`
for a negative number. -/
def FString.FromInt (Num : Int) : String :=
  toString Num

/-! ### `FString::Format` with ordered arguments

The engine formatter replaces index tokens `{N}` (optional blanks around the
digits) by the `N`-th argument.  The grave accent (character 96) escapes an opening
brace or itself.  Every other character is copied.  A percent sign has no special
meaning for this formatter. -/

/-- The opening brace. -/
def openBrace : Char := Char.ofNat 123

/-- The closing brace. -/
def closeBrace : Char := Char.ofNat 125

/-- The escape character of the formatter (grave accent). -/
def escapeChar : Char := Char.ofNat 96

/-- Reads the remainder of an index token after the opening brace:
blanks, at least one digit, blanks, the closing brace.  Returns the index and the
number of characters read. -/
def parseIndex (cs : List Char) : Option (Nat × Nat) :=
  let ws1 := cs.takeWhile Char.isWhitespace
  let r1 := cs.dropWhile Char.isWhitespace
  let ds := r1.takeWhile Char.isDigit
  let r2 := r1.dropWhile Char.isDigit
  let ws2 := r2.takeWhile Char.isWhitespace
  let r3 := r2.dropWhile Char.isWhitespace
  match ds, r3 with
  | [], _ => none
  | _ :: _, c :: _ =>
    if c = closeBrace then
      some (ds.foldl (fun n d => 10 * n + (d.toNat - 48)) 0,
            ws1.length + ds.length + ws2.length + 1)
    else none
  | _ :: _, [] => none

/-- The formatter loop over the characters of the format string; `skip` counts the
characters of a token that was already consumed. -/
def FString.formatChars (Args : List String) : List Char → Nat → List Char
  | [], _ => []
  | _ :: cs, skip + 1 => FString.formatChars Args cs skip
  | c :: cs, 0 =>
    if c = openBrace then
      match parseIndex cs with
      | some (i, len) =>
        match Args.get? i with
        | some a => a.toList ++ FString.formatChars Args cs len
        | none => c :: FString.formatChars Args cs 0
      | none => c :: FString.formatChars Args cs 0
    else if c = escapeChar then
      match cs with
      | d :: _ =>
        if d = openBrace ∨ d = escapeChar then d :: FString.formatChars Args cs 1
        else c :: FString.formatChars Args cs 0
      | [] => [c]
    else c :: FString.formatChars Args cs 0

/-- Engine `FString::Format(InFormatString, InOrderedArguments)`, documented in the
engine as: replaces instances of `{0}` with indices from the given array matching the
index specified in the token. -/
def FString.Format (Fmt : String) (Args : List String) : String :=
  String.mk (FString.formatChars Args Fmt.toList 0)

/-! ### The implicit conversions in the int lambda

`FHoudiniPresetIntValues::ToString` passes each `int` through a lambda whose
parameter is `const float&` and hands the `float` to `FString::FromInt(int32)`.
A binary32 float has a 24-bit significand; a float that holds an integer is
represented here by that integer. -/

/-- Number of low bits a magnitude below `2^32` loses in a 24-bit significand. -/
def droppedBits (a : Nat) : Nat :=
  (List.range 8).countP (fun k => decide (2 ^ (24 + k) ≤ a))

/-- Rounds a magnitude to 24 significant bits, ties to even. -/
def roundSignificand (a : Nat) : Nat :=
  let e := droppedBits a
  let q := a / 2 ^ e
  let r := a % 2 ^ e
  let up := decide (2 ^ e < 2 * r) || (decide (2 * r = 2 ^ e) && decide (q % 2 = 1))
  (if up then q + 1 else q) * 2 ^ e

/-- The `int` to `float` conversion: the value of the nearest binary32 float. -/
def intToFloat (v : Int) : Int :=
  if v < 0 then -(roundSignificand v.natAbs : Int) else (roundSignificand v.natAbs : Int)

/-- The `float` to `int32` conversion of an integral float: the value itself when it
fits; outside the `int32` range the conversion is undefined in C++, and the value the
x86 conversion instruction yields (`INT32_MIN`) is taken. -/
def floatToInt32 (f : Int) : Int :=
  if -(2 : Int) ^ 31 ≤ f ∧ f < (2 : Int) ^ 31 then f else -(2 : Int) ^ 31

/-! ## The header's declarations -/

/-- Header `enum class EHoudiniPresetValueType`. -/
inductive EHoudiniPresetValueType
  | Invalid
  | Float
  | Int
  | String
  deriving DecidableEq

/-- Header `struct FHoudiniPresetBase`: no data members. -/
structure FHoudiniPresetBase where
  deriving DecidableEq

/-- Header `FHoudiniPresetBase::ToString`: `return FString();`. -/
def FHoudiniPresetBase.ToString (_self : FHoudiniPresetBase) : String := ""

/-- Header `FHoudiniPresetBase::GetValueType`: `return EHoudiniPresetValueType::Invalid;`. -/
def FHoudiniPresetBase.GetValueType (_self : FHoudiniPresetBase) : EHoudiniPresetValueType :=
  EHoudiniPresetValueType.Invalid

/-- Header `struct FHoudiniPresetFloatValues : FHoudiniPresetBase`. -/
structure FHoudiniPresetFloatValues (float : Type) extends FHoudiniPresetBase where
  Values : List float

/-- Header `FHoudiniPresetFloatValues::GetValueType`. -/
def FHoudiniPresetFloatValues.GetValueType {float : Type}
    (_self : FHoudiniPresetFloatValues float) : EHoudiniPresetValueType :=
  EHoudiniPresetValueType.Float

/-- Header `FHoudiniPresetFloatValues::ToString`:
`FString::JoinBy(Values, TEXT(", "), [](const float& Value) { return FString::SanitizeFloat(Value); })`.
The engine rendering `FString::SanitizeFloat` is a parameter. -/
def FHoudiniPresetFloatValues.ToString {float : Type} (SanitizeFloat : float → String)
    (self : FHoudiniPresetFloatValues float) : String :=
  FString.JoinBy self.Values ", " (fun Value => SanitizeFloat Value)

/-- Header `struct FHoudiniPresetIntValues : FHoudiniPresetBase`. -/
structure FHoudiniPresetIntValues extends FHoudiniPresetBase where
  Values : List Int
  deriving DecidableEq

/-- Header `FHoudiniPresetIntValues::GetValueType`. -/
def FHoudiniPresetIntValues.GetValueType (_self : FHoudiniPresetIntValues) :
    EHoudiniPresetValueType :=
  EHoudiniPresetValueType.Int

/-- Header `FHoudiniPresetIntValues::ToString`:
`FString::JoinBy(Values, TEXT(", "), [](const float& Value) { return FString::FromInt(Value); })`.
Each `int` element binds to the `const float&` parameter through a converted
temporary, and `FromInt(int32)` converts that float back. -/
def FHoudiniPresetIntValues.ToString (self : FHoudiniPresetIntValues) : String :=
  FString.JoinBy self.Values ", "
    (fun Element => let Value := intToFloat Element; FString.FromInt (floatToInt32 Value))

/-- Header `struct FHoudiniPresetStringValues : FHoudiniPresetBase`. -/
structure FHoudiniPresetStringValues extends FHoudiniPresetBase where
  Values : List String
  deriving DecidableEq

/-- Header `FHoudiniPresetStringValues::GetValueType`. -/
def FHoudiniPresetStringValues.GetValueType (_self : FHoudiniPresetStringValues) :
    EHoudiniPresetValueType :=
  EHoudiniPresetValueType.String

/-- Header `FHoudiniPresetStringValues::ToString`: `FString::Join(Values, TEXT(", "))`. -/
def FHoudiniPresetStringValues.ToString (self : FHoudiniPresetStringValues) : String :=
  FString.Join self.Values ", "

/-- Header `struct FHoudiniPresetRampFloatPoint`. -/
structure FHoudiniPresetRampFloatPoint (float EHoudiniRampInterpolationType : Type) where
  Position : float
  Value : float
  Interpolation : EHoudiniRampInterpolationType

/-- Header `struct FHoudiniPresetRampColorPoint`. -/
structure FHoudiniPresetRampColorPoint
    (float FLinearColor EHoudiniRampInterpolationType : Type) where
  Position : float
  Value : FLinearColor
  Interpolation : EHoudiniRampInterpolationType

/-- Header `struct FHoudiniPresetRampFloatValues : FHoudiniPresetBase`. -/
structure FHoudiniPresetRampFloatValues (float EHoudiniRampInterpolationType : Type)
    extends FHoudiniPresetBase where
  Points : List (FHoudiniPresetRampFloatPoint float EHoudiniRampInterpolationType)

/-- Header `FHoudiniPresetRampFloatValues::GetValueType`. -/
def FHoudiniPresetRampFloatValues.GetValueType {float I : Type}
    (_self : FHoudiniPresetRampFloatValues float I) : EHoudiniPresetValueType :=
  EHoudiniPresetValueType.String

/-- Header `FHoudiniPresetRampFloatValues::ToString`:
`FString::Format(TEXT("%d float points."), { Points.Num() })`. -/
def FHoudiniPresetRampFloatValues.ToString {float I : Type}
    (self : FHoudiniPresetRampFloatValues float I) : String :=
  FString.Format "%d float points." [FString.FromInt self.Points.length]

/-- Header `struct FHoudiniPresetRampColorValues : FHoudiniPresetBase`. -/
structure FHoudiniPresetRampColorValues (float FLinearColor EHoudiniRampInterpolationType : Type)
    extends FHoudiniPresetBase where
  Points : List (FHoudiniPresetRampColorPoint float FLinearColor EHoudiniRampInterpolationType)

/-- Header `FHoudiniPresetRampColorValues::GetValueType`. -/
def FHoudiniPresetRampColorValues.GetValueType {float C I : Type}
    (_self : FHoudiniPresetRampColorValues float C I) : EHoudiniPresetValueType :=
  EHoudiniPresetValueType.String

/-- Header `FHoudiniPresetRampColorValues::ToString`:
`FString::Format(TEXT("%d color points."), { Points.Num() })`. -/
def FHoudiniPresetRampColorValues.ToString {float C I : Type}
    (self : FHoudiniPresetRampColorValues float C I) : String :=
  FString.Format "%d color points." [FString.FromInt self.Points.length]

/-- Header `struct FHoudiniPresetInputObject : FHoudiniPresetBase`: two data members and no
overriding member function. -/
structure FHoudiniPresetInputObject (TSoftObjectPtr FTransform : Type)
    extends FHoudiniPresetBase where
  InputObject : TSoftObjectPtr
  Transform : FTransform

/-- Header `struct FHoudiniPresetInputValue : FHoudiniPresetBase`. -/
structure FHoudiniPresetInputValue (EHoudiniInputType TSoftObjectPtr FTransform : Type)
    extends FHoudiniPresetBase where
  bKeepWorldTransform : Bool
  bPackGeometryBeforeMerging : Bool
  bExportInputAsReference : Bool
  bExportLODs : Bool
  bExportSockets : Bool
  bExportColliders : Bool
  bExportMaterialParameters : Bool
  bMergeSplineMeshComponents : Bool
  bPreferNaniteFallbackMesh : Bool
  InputType : EHoudiniInputType
  bIsParameterInput : Bool
  ParameterName : String
  InputIndex : Int
  InputObjects : List (FHoudiniPresetInputObject TSoftObjectPtr FTransform)

/-- Header `FHoudiniPresetInputValue::GetValueType`. -/
def FHoudiniPresetInputValue.GetValueType {T O X : Type}
    (_self : FHoudiniPresetInputValue T O X) : EHoudiniPresetValueType :=
  EHoudiniPresetValueType.String

/-- Header `FHoudiniPresetInputValue::ToString`: `return FString();`. -/
def FHoudiniPresetInputValue.ToString {T O X : Type}
    (_self : FHoudiniPresetInputValue T O X) : String := ""

/-- An object whose static type is `FHoudiniPresetBase` and whose dynamic type is the
base or one of the seven structs the header derives from it. -/
inductive PresetStruct (float FLinearColor Interp InputType ObjPtr Xform : Type)
  | Base (b : FHoudiniPresetBase)
  | FloatValues (v : FHoudiniPresetFloatValues float)
  | IntValues (v : FHoudiniPresetIntValues)
  | StringValues (v : FHoudiniPresetStringValues)
  | RampFloatValues (v : FHoudiniPresetRampFloatValues float Interp)
  | RampColorValues (v : FHoudiniPresetRampColorValues float FLinearColor Interp)
  | InputObject (v : FHoudiniPresetInputObject ObjPtr Xform)
  | InputValue (v : FHoudiniPresetInputValue InputType ObjPtr Xform)

/-- Virtual call of `GetValueType`: the final overrider of the dynamic type; a struct
without an override runs the base version. -/
def PresetStruct.GetValueType {F C I T O X : Type} :
    PresetStruct F C I T O X → EHoudiniPresetValueType
  | .Base b => b.GetValueType
  | .FloatValues v => v.GetValueType
  | .IntValues v => v.GetValueType
  | .StringValues v => v.GetValueType
  | .RampFloatValues v => v.GetValueType
  | .RampColorValues v => v.GetValueType
  | .InputObject v => v.toFHoudiniPresetBase.GetValueType
  | .InputValue v => v.GetValueType

/-- Virtual call of `ToString`, resolved the same way. -/
def PresetStruct.ToString {F C I T O X : Type} (SanitizeFloat : F → String) :
    PresetStruct F C I T O X → String
  | .Base b => b.ToString
  | .FloatValues v => v.ToString SanitizeFloat
  | .IntValues v => v.ToString
  | .StringValues v => v.ToString
  | .RampFloatValues v => v.ToString
  | .RampColorValues v => v.ToString
  | .InputObject v => v.toFHoudiniPresetBase.ToString
  | .InputValue v => v.ToString

/-! ## Engine container `TMap` -/

/-- Engine `TMap<FString, V>`: the stored key/value pairs, in insertion order. -/
structure TMap (V : Type) where
  Pairs : List (String × V)

/-- The loop of `TMap::Add` over the stored pairs: the first pair with an equal key is
replaced; with no such pair the new pair is appended. -/
def TMap.addPairs {V : Type} (Key : String) (Value : V) :
    List (String × V) → List (String × V)
  | [] => [(Key, Value)]
  | kv :: rest =>
    if kv.1 = Key then (Key, Value) :: rest else kv :: TMap.addPairs Key Value rest

/-- Engine `TMap::Add(Key, Value)`: sets the value associated with the key. -/
def TMap.Add {V : Type} (self : TMap V) (Key : String) (Value : V) : TMap V :=
  ⟨TMap.addPairs Key Value self.Pairs⟩

/-- The loop of `TMap::Find` over the stored pairs. -/
def TMap.findPairs {V : Type} (Key : String) : List (String × V) → Option V
  | [] => none
  | kv :: rest => if kv.1 = Key then some kv.2 else TMap.findPairs Key rest

/-- Engine `TMap::Find(Key)`: the value associated with the key, if any. -/
def TMap.Find {V : Type} (self : TMap V) (Key : String) : Option V :=
  TMap.findPairs Key self.Pairs

/-- The keys of the stored pairs. -/
def TMap.Keys {V : Type} (self : TMap V) : List String :=
  self.Pairs.map Prod.fst

/-- Number of stored pairs whose key is `Key`. -/
def TMap.CountKey {V : Type} (self : TMap V) (Key : String) : Nat :=
  self.Pairs.countP (fun kv => decide (kv.1 = Key))

/-- Header `class UHoudiniPreset`: the descriptive members, the five name-keyed mappings and
the input sequence.  `UHoudiniAsset*` is a type parameter. -/
structure UHoudiniPreset (UHoudiniAssetPtr float FLinearColor Interp InputType ObjPtr Xform : Type)
    where
  Name : String
  Description : String
  SourceHoudiniAsset : UHoudiniAssetPtr
  bRevertHDAParameters : Bool
  bApplyOnlyToSource : Bool
  bCanInstantiate : Bool
  FloatParameters : TMap (FHoudiniPresetFloatValues float)
  IntParameters : TMap FHoudiniPresetIntValues
  StringParameters : TMap FHoudiniPresetStringValues
  RampFloatParameters : TMap (FHoudiniPresetRampFloatValues float Interp)
  RampColorParameters : TMap (FHoudiniPresetRampColorValues float FLinearColor Interp)
  InputParameters : List (FHoudiniPresetInputValue InputType ObjPtr Xform)

/-! ## Live parameters and inputs

The header forward-declares the parameter and input classes; their definitions are in
the runtime module.  They are modelled from the adapter contracts of the specification. -/

/-- Modelled from the spec: the live int parameter (`UHoudiniParameterInt`, runtime
module): `name()` and the `componentCount()` integer components read by `getInt(i)`. -/
structure UHoudiniParameterInt where
  Name : String
  Values : List Int
  deriving DecidableEq

/-- Modelled from the spec: the live choice parameter (`UHoudiniParameterChoice`,
runtime module): `name()`, `options()` and `selectedIndex()`; one component. -/
structure UHoudiniParameterChoice where
  Name : String
  Options : List String
  SelectedIndex : Int
  deriving DecidableEq

/-- Modelled from the spec: `selectedLabel()` of a choice parameter, the label of the
selected option (empty when the index selects no option). -/
def UHoudiniParameterChoice.SelectedLabel (self : UHoudiniParameterChoice) : String :=
  if 0 ≤ self.SelectedIndex then self.Options.getD self.SelectedIndex.toNat "" else ""

/-- Modelled from the spec: the live toggle parameter (`UHoudiniParameterToggle`,
runtime module): `name()` and its single on/off component. -/
structure UHoudiniParameterToggle where
  Name : String
  Value : Bool
  deriving DecidableEq

/-- Modelled from the spec: the live float parameter (`UHoudiniParameterFloat`, runtime
module): `name()` and the float components read by `getFloat(i)`. -/
structure UHoudiniParameterFloat (float : Type) where
  Name : String
  Values : List float

/-- Modelled from the spec: the live colour parameter (`UHoudiniParameterColor`,
runtime module): `name()` and its 3 or 4 channels in the order R, G, B, A. -/
structure UHoudiniParameterColor (float : Type) where
  Name : String
  Channels : List float

/-- Modelled from the spec: the live string parameter (`UHoudiniParameterString`,
runtime module): `name()` and the string components read by `getString(i)`. -/
structure UHoudiniParameterString where
  Name : String
  Values : List String
  deriving DecidableEq

/-- Modelled from the spec: the live file parameter (`UHoudiniParameterFile`, runtime
module): `name()` and its path strings. -/
structure UHoudiniParameterFile where
  Name : String
  Values : List String
  deriving DecidableEq

/-- Modelled from the spec: a point of a live ramp as `points()` returns it,
`RampPoint<T> = { Position, Value, Interpolation }`. -/
structure RampPoint (float T Interp : Type) where
  Position : float
  Value : T
  Interpolation : Interp

/-- Modelled from the spec: the live float ramp (`UHoudiniParameterRampFloat`, runtime
module): `name()` and `points()`. -/
structure UHoudiniParameterRampFloat (float Interp : Type) where
  Name : String
  Points : List (RampPoint float float Interp)

/-- Modelled from the spec: the live colour ramp (`UHoudiniParameterRampColor`, runtime
module): `name()` and `points()`. -/
structure UHoudiniParameterRampColor (float FLinearColor Interp : Type) where
  Name : String
  Points : List (RampPoint float FLinearColor Interp)

/-- What a call hands back to its caller: nothing for a function declared `void`, a
flag for a function declared `bool`. -/
inductive ReturnValue
  | Void
  | Bool (b : Bool)
  deriving DecidableEq

/-- Modelled from the spec: `PopulateFromParameter(UHoudiniParameterInt*, ...)`
(body in HoudiniPreset.cpp): the n current integer values. -/
def PopulateFromParameterInt (Parm : UHoudiniParameterInt) : FHoudiniPresetIntValues :=
  { Values := Parm.Values }

/-- Modelled from the spec: `PopulateFromParameter(UHoudiniParameterFloat*, ...)`
(body in HoudiniPreset.cpp): the n current float values. -/
def PopulateFromParameterFloat {float : Type} (Parm : UHoudiniParameterFloat float) :
    FHoudiniPresetFloatValues float :=
  { Values := Parm.Values }

/-- Modelled from the spec: `PopulateFromParameter(UHoudiniParameterString*, ...)`
(body in HoudiniPreset.cpp): the n strings. -/
def PopulateFromParameterString (Parm : UHoudiniParameterString) : FHoudiniPresetStringValues :=
  { Values := Parm.Values }

/-- Modelled from the spec: the payload of a choice captured as an index (body in
HoudiniPreset.cpp): a single-element sequence holding the selected index. -/
def PopulateFromChoiceIndex (Parm : UHoudiniParameterChoice) : FHoudiniPresetIntValues :=
  { Values := [Parm.SelectedIndex] }

/-- Modelled from the spec: the payload of a toggle (body in HoudiniPreset.cpp): a
single-element sequence, 0 or 1. -/
def PopulateFromToggle (Parm : UHoudiniParameterToggle) : FHoudiniPresetIntValues :=
  { Values := [if Parm.Value then 1 else 0] }

/-- Modelled from the spec: the payload of a colour parameter (body in
HoudiniPreset.cpp): its 3 or 4 floats in channel order. -/
def PopulateFromColor {float : Type} (Parm : UHoudiniParameterColor float) :
    FHoudiniPresetFloatValues float :=
  { Values := Parm.Channels }

/-- Modelled from the spec: the payload of a file parameter (body in HoudiniPreset.cpp):
its path strings, unmodified. -/
def PopulateFromFile (Parm : UHoudiniParameterFile) : FHoudiniPresetStringValues :=
  { Values := Parm.Values }

/-- Modelled from the spec: the payload of a choice captured as a label (body in
HoudiniPreset.cpp): a single-element sequence holding the selected option label. -/
def PopulateFromChoiceLabel (Parm : UHoudiniParameterChoice) : FHoudiniPresetStringValues :=
  { Values := [Parm.SelectedLabel] }

/-- Modelled from the spec: the payload of a float ramp (body in HoudiniPreset.cpp): the
points in source order, each position, value, interpolation. -/
def PopulateFromRampFloat {float Interp : Type} (Parm : UHoudiniParameterRampFloat float Interp) :
    FHoudiniPresetRampFloatValues float Interp :=
  { Points := Parm.Points.map (fun pt =>
      { Position := pt.Position, Value := pt.Value, Interpolation := pt.Interpolation }) }

/-- Modelled from the spec: the payload of a colour ramp (body in HoudiniPreset.cpp):
the points in source order, each position, rgba, interpolation. -/
def PopulateFromRampColor {float C Interp : Type} (Parm : UHoudiniParameterRampColor float C Interp) :
    FHoudiniPresetRampColorValues float C Interp :=
  { Points := Parm.Points.map (fun pt =>
      { Position := pt.Position, Value := pt.Value, Interpolation := pt.Interpolation }) }

/-- Modelled from the spec: `bool IngestParameter(UHoudiniParameterInt*,
TMap<FString,FHoudiniPresetIntValues>&, FString&)` (body in HoudiniPreset.cpp): the
entry keyed by the parameter name is set to the captured payload. -/
def IngestParameterInt (Parm : UHoudiniParameterInt) (OutValues : TMap FHoudiniPresetIntValues) :
    ReturnValue × TMap FHoudiniPresetIntValues :=
  (ReturnValue.Bool true, OutValues.Add Parm.Name (PopulateFromParameterInt Parm))

/-- Modelled from the spec: `bool IngestParameter(UHoudiniParameterChoice*,
TMap<FString,FHoudiniPresetIntValues>&, FString&)` (body in HoudiniPreset.cpp). -/
def IngestParameterChoiceInt (Parm : UHoudiniParameterChoice)
    (OutValues : TMap FHoudiniPresetIntValues) : ReturnValue × TMap FHoudiniPresetIntValues :=
  (ReturnValue.Bool true, OutValues.Add Parm.Name (PopulateFromChoiceIndex Parm))

/-- Modelled from the spec: `bool IngestParameter(UHoudiniParameterToggle*,
TMap<FString,FHoudiniPresetIntValues>&, FString&)` (body in HoudiniPreset.cpp). -/
def IngestParameterToggle (Parm : UHoudiniParameterToggle)
    (OutValues : TMap FHoudiniPresetIntValues) : ReturnValue × TMap FHoudiniPresetIntValues :=
  (ReturnValue.Bool true, OutValues.Add Parm.Name (PopulateFromToggle Parm))

/-- Modelled from the spec: `bool IngestParameter(UHoudiniParameterFloat*,
TMap<FString,FHoudiniPresetFloatValues>&, FString&)` (body in HoudiniPreset.cpp). -/
def IngestParameterFloat {float : Type} (Parm : UHoudiniParameterFloat float)
    (OutValues : TMap (FHoudiniPresetFloatValues float)) :
    ReturnValue × TMap (FHoudiniPresetFloatValues float) :=
  (ReturnValue.Bool true, OutValues.Add Parm.Name (PopulateFromParameterFloat Parm))

/-- Modelled from the spec: `bool IngestParameter(UHoudiniParameterColor*,
TMap<FString,FHoudiniPresetFloatValues>&, FString&)` (body in HoudiniPreset.cpp). -/
def IngestParameterColor {float : Type} (Parm : UHoudiniParameterColor float)
    (OutValues : TMap (FHoudiniPresetFloatValues float)) :
    ReturnValue × TMap (FHoudiniPresetFloatValues float) :=
  (ReturnValue.Bool true, OutValues.Add Parm.Name (PopulateFromColor Parm))

/-- Modelled from the spec: `bool IngestParameter(UHoudiniParameterString*,
TMap<FString,FHoudiniPresetStringValues>&, FString&)` (body in HoudiniPreset.cpp). -/
def IngestParameterString (Parm : UHoudiniParameterString)
    (OutValues : TMap FHoudiniPresetStringValues) :
    ReturnValue × TMap FHoudiniPresetStringValues :=
  (ReturnValue.Bool true, OutValues.Add Parm.Name (PopulateFromParameterString Parm))

/-- Modelled from the spec: `bool IngestParameter(UHoudiniParameterFile*,
TMap<FString,FHoudiniPresetStringValues>&, FString&)` (body in HoudiniPreset.cpp). -/
def IngestParameterFile (Parm : UHoudiniParameterFile)
    (OutValues : TMap FHoudiniPresetStringValues) :
    ReturnValue × TMap FHoudiniPresetStringValues :=
  (ReturnValue.Bool true, OutValues.Add Parm.Name (PopulateFromFile Parm))

/-- Modelled from the spec: `bool IngestParameter(UHoudiniParameterChoice*,
TMap<FString,FHoudiniPresetStringValues>&, FString&)` (body in HoudiniPreset.cpp). -/
def IngestParameterChoiceString (Parm : UHoudiniParameterChoice)
    (OutValues : TMap FHoudiniPresetStringValues) :
    ReturnValue × TMap FHoudiniPresetStringValues :=
  (ReturnValue.Bool true, OutValues.Add Parm.Name (PopulateFromChoiceLabel Parm))

/-- Modelled from the spec: `bool IngestParameter(UHoudiniParameterRampFloat*,
TMap<FString,FHoudiniPresetRampFloatValues>&, FString&)` (body in HoudiniPreset.cpp). -/
def IngestParameterRampFloat {float Interp : Type} (Parm : UHoudiniParameterRampFloat float Interp)
    (OutValues : TMap (FHoudiniPresetRampFloatValues float Interp)) :
    ReturnValue × TMap (FHoudiniPresetRampFloatValues float Interp) :=
  (ReturnValue.Bool true, OutValues.Add Parm.Name (PopulateFromRampFloat Parm))

/-- Modelled from the spec: `bool IngestParameter(UHoudiniParameterRampColor*,
TMap<FString,FHoudiniPresetRampColorValues>&, FString&)` (body in HoudiniPreset.cpp). -/
def IngestParameterRampColor {float C Interp : Type}
    (Parm : UHoudiniParameterRampColor float C Interp)
    (OutValues : TMap (FHoudiniPresetRampColorValues float C Interp)) :
    ReturnValue × TMap (FHoudiniPresetRampColorValues float C Interp) :=
  (ReturnValue.Bool true, OutValues.Add Parm.Name (PopulateFromRampColor Parm))

/-- An argument accepted by the `IngestParameter` overloads that fill `IntParameters`. -/
inductive IntMappingParm
  | ofInt (Parm : UHoudiniParameterInt)
  | ofChoice (Parm : UHoudiniParameterChoice)
  | ofToggle (Parm : UHoudiniParameterToggle)

/-- The name of the captured parameter. -/
def IntMappingParm.Name : IntMappingParm → String
  | .ofInt p => p.Name
  | .ofChoice p => p.Name
  | .ofToggle p => p.Name

/-- The payload the capture stores. -/
def IntMappingParm.Payload : IntMappingParm → FHoudiniPresetIntValues
  | .ofInt p => PopulateFromParameterInt p
  | .ofChoice p => PopulateFromChoiceIndex p
  | .ofToggle p => PopulateFromToggle p

/-- Overload resolution of `IngestParameter(_, TMap<FString,FHoudiniPresetIntValues>&, _)`. -/
def IntMappingParm.IngestParameter (Parm : IntMappingParm)
    (OutValues : TMap FHoudiniPresetIntValues) : ReturnValue × TMap FHoudiniPresetIntValues :=
  match Parm with
  | .ofInt p => IngestParameterInt p OutValues
  | .ofChoice p => IngestParameterChoiceInt p OutValues
  | .ofToggle p => IngestParameterToggle p OutValues

/-- An argument accepted by the `IngestParameter` overloads that fill `FloatParameters`. -/
inductive FloatMappingParm (float : Type)
  | ofFloat (Parm : UHoudiniParameterFloat float)
  | ofColor (Parm : UHoudiniParameterColor float)

/-- The name of the captured parameter. -/
def FloatMappingParm.Name {float : Type} : FloatMappingParm float → String
  | .ofFloat p => p.Name
  | .ofColor p => p.Name

/-- The payload the capture stores. -/
def FloatMappingParm.Payload {float : Type} :
    FloatMappingParm float → FHoudiniPresetFloatValues float
  | .ofFloat p => PopulateFromParameterFloat p
  | .ofColor p => PopulateFromColor p

/-- Overload resolution of `IngestParameter(_, TMap<FString,FHoudiniPresetFloatValues>&, _)`. -/
def FloatMappingParm.IngestParameter {float : Type} (Parm : FloatMappingParm float)
    (OutValues : TMap (FHoudiniPresetFloatValues float)) :
    ReturnValue × TMap (FHoudiniPresetFloatValues float) :=
  match Parm with
  | .ofFloat p => IngestParameterFloat p OutValues
  | .ofColor p => IngestParameterColor p OutValues

/-- An argument accepted by the `IngestParameter` overloads that fill `StringParameters`. -/
inductive StringMappingParm
  | ofString (Parm : UHoudiniParameterString)
  | ofFile (Parm : UHoudiniParameterFile)
  | ofChoice (Parm : UHoudiniParameterChoice)

/-- The name of the captured parameter. -/
def StringMappingParm.Name : StringMappingParm → String
  | .ofString p => p.Name
  | .ofFile p => p.Name
  | .ofChoice p => p.Name

/-- The payload the capture stores. -/
def StringMappingParm.Payload : StringMappingParm → FHoudiniPresetStringValues
  | .ofString p => PopulateFromParameterString p
  | .ofFile p => PopulateFromFile p
  | .ofChoice p => PopulateFromChoiceLabel p

/-- Overload resolution of `IngestParameter(_, TMap<FString,FHoudiniPresetStringValues>&, _)`. -/
def StringMappingParm.IngestParameter (Parm : StringMappingParm)
    (OutValues : TMap FHoudiniPresetStringValues) :
    ReturnValue × TMap FHoudiniPresetStringValues :=
  match Parm with
  | .ofString p => IngestParameterString p OutValues
  | .ofFile p => IngestParameterFile p OutValues
  | .ofChoice p => IngestParameterChoiceString p OutValues

/-- Modelled from the spec: the elementwise write of Apply (body in HoudiniPreset.cpp):
component `i` of the parameter takes payload value `i` for every `i` below both
lengths; further components keep their value, further payload values are ignored. -/
def writeElementwise {α : Type} : List α → List α → List α
  | _, [] => []
  | [], c :: cs => c :: cs
  | v :: vs, _ :: cs => v :: writeElementwise vs cs

/-- Modelled from the spec: `void ApplyPresetParameterValues(const FHoudiniPresetIntValues&,
UHoudiniParameterInt*)` (body in HoudiniPreset.cpp): writes min(payload length,
component count) values elementwise. -/
def ApplyPresetParameterValuesInt (Values : FHoudiniPresetIntValues)
    (Param : UHoudiniParameterInt) : UHoudiniParameterInt :=
  { Param with Values := writeElementwise Values.Values Param.Values }

/-- Modelled from the spec: `void ApplyPresetParameterValues(const FHoudiniPresetIntValues&,
UHoudiniParameterChoice*)` (body in HoudiniPreset.cpp): writes payload[0] as the
selected index, clamped to the valid range of the live options. -/
def ApplyPresetParameterValuesChoiceInt (Values : FHoudiniPresetIntValues)
    (Param : UHoudiniParameterChoice) : UHoudiniParameterChoice :=
  match Values.Values with
  | [] => Param
  | v :: _ =>
    { Param with SelectedIndex := max 0 (min v ((Param.Options.length : Int) - 1)) }

/-- Modelled from the spec: `void ApplyPresetParameterValues(const FHoudiniPresetIntValues&,
UHoudiniParameterToggle*)` (body in HoudiniPreset.cpp): writes `payload[0] != 0`. -/
def ApplyPresetParameterValuesToggle (Values : FHoudiniPresetIntValues)
    (Param : UHoudiniParameterToggle) : UHoudiniParameterToggle :=
  match Values.Values with
  | [] => Param
  | v :: _ => { Param with Value := decide (v ≠ 0) }

/-- Modelled from the spec: `void ApplyPresetParameterValues(const FHoudiniPresetFloatValues&,
UHoudiniParameterFloat*)` (body in HoudiniPreset.cpp): elementwise write, truncated to
the declared component count. -/
def ApplyPresetParameterValuesFloat {float : Type} (Values : FHoudiniPresetFloatValues float)
    (Param : UHoudiniParameterFloat float) : UHoudiniParameterFloat float :=
  { Param with Values := writeElementwise Values.Values Param.Values }

/-- Modelled from the spec: `void ApplyPresetParameterValues(const FHoudiniPresetFloatValues&,
UHoudiniParameterColor*)` (body in HoudiniPreset.cpp): writes the channels; a shorter
payload leaves the remaining channels unchanged, extras are ignored. -/
def ApplyPresetParameterValuesColor {float : Type} (Values : FHoudiniPresetFloatValues float)
    (Param : UHoudiniParameterColor float) : UHoudiniParameterColor float :=
  { Param with Channels := writeElementwise Values.Values Param.Channels }

/-- Modelled from the spec: `void ApplyPresetParameterValues(const FHoudiniPresetStringValues&,
UHoudiniParameterString*)` (body in HoudiniPreset.cpp): elementwise write. -/
def ApplyPresetParameterValuesString (Values : FHoudiniPresetStringValues)
    (Param : UHoudiniParameterString) : UHoudiniParameterString :=
  { Param with Values := writeElementwise Values.Values Param.Values }

/-- Modelled from the spec: `void ApplyPresetParameterValues(const FHoudiniPresetStringValues&,
UHoudiniParameterFile*)` (body in HoudiniPreset.cpp): elementwise write. -/
def ApplyPresetParameterValuesFile (Values : FHoudiniPresetStringValues)
    (Param : UHoudiniParameterFile) : UHoudiniParameterFile :=
  { Param with Values := writeElementwise Values.Values Param.Values }

/-- Modelled from the spec: the exact match of a string against the option labels: the
position of the first option equal to the string. -/
def findOptionLabel (Label : String) : List String → Option Nat
  | [] => none
  | o :: os =>
    if o = Label then some 0
    else
      match findOptionLabel Label os with
      | some i => some (i + 1)
      | none => none

/-- Modelled from the spec: `void ApplyPresetParameterValues(const FHoudiniPresetStringValues&,
UHoudiniParameterChoice*)` (body in HoudiniPreset.cpp): selects the option whose label
equals the stored string; with no such option the parameter is left as it is. -/
def ApplyPresetParameterValuesChoiceString (Values : FHoudiniPresetStringValues)
    (Param : UHoudiniParameterChoice) : UHoudiniParameterChoice :=
  match Values.Values with
  | [] => Param
  | s :: _ =>
    match findOptionLabel s Param.Options with
    | some i => { Param with SelectedIndex := (i : Int) }
    | none => Param

/-- Modelled from the spec: `void ApplyPresetParameterValues(const FHoudiniPresetRampFloatValues&,
UHoudiniParameterRampFloat*)` (body in HoudiniPreset.cpp): replaces the points verbatim,
in order. -/
def ApplyPresetParameterValuesRampFloat {float Interp : Type}
    (Values : FHoudiniPresetRampFloatValues float Interp)
    (Param : UHoudiniParameterRampFloat float Interp) : UHoudiniParameterRampFloat float Interp :=
  { Param with Points := Values.Points.map (fun pt =>
      { Position := pt.Position, Value := pt.Value, Interpolation := pt.Interpolation }) }

/-- Modelled from the spec: `void ApplyPresetParameterValues(const FHoudiniPresetRampColorValues&,
UHoudiniParameterRampColor*)` (body in HoudiniPreset.cpp): replaces the points verbatim. -/
def ApplyPresetParameterValuesRampColor {float C Interp : Type}
    (Values : FHoudiniPresetRampColorValues float C Interp)
    (Param : UHoudiniParameterRampColor float C Interp) :
    UHoudiniParameterRampColor float C Interp :=
  { Param with Points := Values.Points.map (fun pt =>
      { Position := pt.Position, Value := pt.Value, Interpolation := pt.Interpolation }) }

/-- The state of a mapping `After` a repeated capture into `Before` under `Key`: exactly
one entry for `Key`, holding `Value`; every other key as before; keys unique. -/
def TMap.IsRecapture {V : Type} (Before : TMap V) (Key : String) (Value : V)
    (After : TMap V) : Prop :=
  After.CountKey Key = 1 ∧
  After.Find Key = some Value ∧
  (∀ k : String, k ≠ Key → After.Find k = Before.Find k ∧ After.CountKey k = Before.CountKey k) ∧
  After.Keys.Nodup

/-! ## Lemmas on the engine string helpers -/

theorem FString.JoinBy_loop {α : Type} (Separator : String) (Proj : α → String)
    (Range : List α) (acc : String) :
    (Range.foldl
      (fun (st : String × Bool) (Element : α) =>
        let Result := if st.2 then st.1 else st.1 ++ Separator
        (Result ++ Proj Element, false))
      (acc, false)).1 = String.intercalate.go acc Separator (Range.map Proj) := by
  induction Range generalizing acc with
  | nil => simp [String.intercalate.go]
  | cons x xs ih => simp [String.intercalate.go, ih]

theorem FString.join_acc (l : List String) (acc : String) :
    l.foldl (fun r s => r ++ s) acc = acc ++ String.join l := by
  induction l generalizing acc with
  | nil => simp [String.join]
  | cons y ys ih =>
    simp only [List.foldl_cons, String.join]
    rw [ih (acc ++ y), ih ("" ++ y)]
    simp [String.append_assoc]

theorem FString.intercalate_go_eq (acc Separator : String) (l : List String) :
    String.intercalate.go acc Separator l
      = acc ++ String.join (l.map (fun y => Separator ++ y)) := by
  induction l generalizing acc with
  | nil => simp [String.intercalate.go, String.join]
  | cons y ys ih =>
    simp only [String.intercalate.go, ih, List.map_cons]
    simp only [String.join, List.foldl_cons]
    rw [FString.join_acc _ ("" ++ (Separator ++ y))]
    simp [String.join, String.append_assoc]

theorem FString.JoinBy_eq_intercalate {α : Type} (Separator : String) (Proj : α → String)
    (Range : List α) :
    FString.JoinBy Range Separator Proj = String.intercalate Separator (Range.map Proj) := by
  cases Range with
  | nil => simp [FString.JoinBy, String.intercalate]
  | cons x xs =>
    simp only [FString.JoinBy, List.foldl_cons, List.map_cons, String.intercalate]
    simpa using FString.JoinBy_loop Separator Proj xs ("" ++ Proj x)

theorem FString.Format_index_token :
    FString.Format "\x7b0\x7d float points." [FString.FromInt 5] = "5 float points." := by
  decide

theorem FString.Join_eq_JoinBy (Range : List String) (Separator : String) :
    FString.Join Range Separator = FString.JoinBy Range Separator id := rfl

/-! ## Claims settled on the header -/

/-- C2: `GetValueType` of every float payload is `Float`, of every int payload `Int`, of
every string payload `String`, and of every float-ramp payload, colour-ramp payload and
input record `String`, whatever the payload holds. -/
theorem GetValueType_table {F C I T O X : Type} :
    (∀ v : FHoudiniPresetFloatValues F, v.GetValueType = EHoudiniPresetValueType.Float) ∧
    (∀ v : FHoudiniPresetIntValues, v.GetValueType = EHoudiniPresetValueType.Int) ∧
    (∀ v : FHoudiniPresetStringValues, v.GetValueType = EHoudiniPresetValueType.String) ∧
    (∀ v : FHoudiniPresetRampFloatValues F I,
      v.GetValueType = EHoudiniPresetValueType.String) ∧
    (∀ v : FHoudiniPresetRampColorValues F C I,
      v.GetValueType = EHoudiniPresetValueType.String) ∧
    (∀ v : FHoudiniPresetInputValue T O X,
      v.GetValueType = EHoudiniPresetValueType.String) ∧
    (∀ s : PresetStruct F C I T O X,
      s.GetValueType =
        match s with
        | .Base _ => EHoudiniPresetValueType.Invalid
        | .FloatValues _ => EHoudiniPresetValueType.Float
        | .IntValues _ => EHoudiniPresetValueType.Int
        | .StringValues _ => EHoudiniPresetValueType.String
        | .RampFloatValues _ => EHoudiniPresetValueType.String
        | .RampColorValues _ => EHoudiniPresetValueType.String
        | .InputObject _ => EHoudiniPresetValueType.Invalid
        | .InputValue _ => EHoudiniPresetValueType.String) := by
  refine ⟨fun _ => rfl, fun _ => rfl, fun _ => rfl, fun _ => rfl, fun _ => rfl,
    fun _ => rfl, ?_⟩
  intro s
  cases s <;> rfl

/-- C5 (evaluation of the code): `ToString` of a ramp payload is the format string itself,
`%d float points.` or `%d color points.`, for every number of points, because the brace
formatter has no percent placeholders; with five points the result is not
`5 float points.` (resp. `5 color points.`). -/
theorem ramp_ToString_is_format_text {F C I : Type} :
    (∀ r : FHoudiniPresetRampFloatValues F I, r.ToString = "%d float points.") ∧
    (∀ r : FHoudiniPresetRampColorValues F C I, r.ToString = "%d color points.") ∧
    (∀ p1 p2 p3 p4 p5 : FHoudiniPresetRampFloatPoint F I,
      (FHoudiniPresetRampFloatValues.mk {} [p1, p2, p3, p4, p5]).ToString
        ≠ FString.FromInt 5 ++ " float points.") ∧
    (∀ p1 p2 p3 p4 p5 : FHoudiniPresetRampColorPoint F C I,
      (FHoudiniPresetRampColorValues.mk {} [p1, p2, p3, p4, p5]).ToString
        ≠ FString.FromInt 5 ++ " color points.") := by
  have hf : ∀ r : FHoudiniPresetRampFloatValues F I, r.ToString = "%d float points." :=
    fun _ => rfl
  have hc : ∀ r : FHoudiniPresetRampColorValues F C I, r.ToString = "%d color points." :=
    fun _ => rfl
  refine ⟨hf, hc, ?_, ?_⟩
  · intro p1 p2 p3 p4 p5
    rw [hf]
    decide
  · intro p1 p2 p3 p4 p5
    rw [hc]
    decide

/-- C6: `ToString` of a float payload is the renderings of its values in stored order
joined by `", "`: empty for no value, the rendering alone for one value, and
`1.0, 2.0, 3.0` for three values rendered `1.0`, `2.0`, `3.0`. -/
theorem FloatValues_ToString_joined {float : Type} (SanitizeFloat : float → String) :
    (∀ v : FHoudiniPresetFloatValues float,
      v.ToString SanitizeFloat = String.intercalate ", " (v.Values.map SanitizeFloat)) ∧
    (FHoudiniPresetFloatValues.mk {} ([] : List float)).ToString SanitizeFloat = "" ∧
    (∀ x : float, (FHoudiniPresetFloatValues.mk {} [x]).ToString SanitizeFloat
      = SanitizeFloat x) ∧
    (∀ (x : float) (xs : List float),
      (FHoudiniPresetFloatValues.mk {} (x :: xs)).ToString SanitizeFloat
        = SanitizeFloat x ++ String.join (xs.map (fun y => ", " ++ SanitizeFloat y))) ∧
    (∀ a b c : float, SanitizeFloat a = "1.0" → SanitizeFloat b = "2.0" →
      SanitizeFloat c = "3.0" →
      (FHoudiniPresetFloatValues.mk {} [a, b, c]).ToString SanitizeFloat
        = "1.0, 2.0, 3.0") := by
  have h : ∀ v : FHoudiniPresetFloatValues float,
      v.ToString SanitizeFloat = String.intercalate ", " (v.Values.map SanitizeFloat) :=
    fun v => FString.JoinBy_eq_intercalate ", " (fun Value => SanitizeFloat Value) v.Values
  refine ⟨h, rfl, ?_, ?_, ?_⟩
  · intro x
    simp [h, String.intercalate, String.intercalate.go]
  · intro x xs
    rw [h]
    simp only [List.map_cons, String.intercalate]
    rw [FString.intercalate_go_eq, List.map_map]
    rfl
  · intro a b c ha hb hc
    simp [h, String.intercalate, String.intercalate.go, ha, hb, hc]

/-- C6, at a concrete rendering: with natural numbers standing for the floats 1, 2, 3 and
rendered with one fractional digit, the payload renders as `1.0, 2.0, 3.0`. -/
theorem FloatValues_ToString_joined_witness :
    (FHoudiniPresetFloatValues.mk {} [1, 2, 3]).ToString
      (fun n : Nat => toString n ++ ".0") = "1.0, 2.0, 3.0" :=
  (FloatValues_ToString_joined (fun n : Nat => toString n ++ ".0")).2.2.2.2 1 2 3
    (by decide) (by decide) (by decide)

/-- The round trip `int → float → int32` of the lambda is exact below `2^24`. -/
theorem floatToInt32_intToFloat_small (v : Int) (h : v.natAbs < 2 ^ 24) :
    floatToInt32 (intToFloat v) = v := by
  have hd : droppedBits v.natAbs = 0 := by
    unfold droppedBits
    rw [List.countP_eq_zero]
    intro k hk
    have hk8 : k < 8 := List.mem_range.mp hk
    have : 2 ^ 24 ≤ 2 ^ (24 + k) := Nat.pow_le_pow_right (by norm_num) (by omega)
    simp only [decide_eq_true_eq, not_le]
    omega
  have hr : roundSignificand v.natAbs = v.natAbs := by
    simp [roundSignificand, hd, Nat.mod_one]
  unfold intToFloat floatToInt32
  rw [hr]
  have h24 : (2 : Int) ^ 24 = 16777216 := by norm_num
  have h31 : (2 : Int) ^ 31 = 2147483648 := by norm_num
  have h24n : (2 : Nat) ^ 24 = 16777216 := by norm_num
  split_ifs <;> omega

/-- C7 (evaluation of the code): `ToString` of an int payload joins, with `", "`, the
numerals of the stored values after their passage through a `float`; the payload
`[16777217]` renders as `16777216`, which is not the decimal numeral of the stored
value. -/
theorem IntValues_ToString_through_float :
    (∀ v : FHoudiniPresetIntValues,
      v.ToString = String.intercalate ", "
        (v.Values.map (fun e => FString.FromInt (floatToInt32 (intToFloat e))))) ∧
    (FHoudiniPresetIntValues.mk {} [16777217]).ToString = "16777216" ∧
    (FHoudiniPresetIntValues.mk {} [16777217]).ToString ≠ FString.FromInt 16777217 ∧
    (FHoudiniPresetIntValues.mk {} [16777217]).ToString
      ≠ String.intercalate ", " ([16777217].map FString.FromInt) := by
  refine ⟨fun v => FString.JoinBy_eq_intercalate ", " _ v.Values, ?_, ?_, ?_⟩
  · decide
  · decide
  · decide

/-- C8: the one-element string payload `["a, b"]` and the two-element payload
`["a", "b"]` are distinct and have the same `ToString`; `ToString` is not injective. -/
theorem StringValues_ToString_not_injective :
    FHoudiniPresetStringValues.mk {} ["a, b"] ≠ FHoudiniPresetStringValues.mk {} ["a", "b"] ∧
    (FHoudiniPresetStringValues.mk {} ["a, b"]).ToString
      = (FHoudiniPresetStringValues.mk {} ["a", "b"]).ToString ∧
    ¬ Function.Injective FHoudiniPresetStringValues.ToString := by
  have hne : FHoudiniPresetStringValues.mk {} ["a, b"]
      ≠ FHoudiniPresetStringValues.mk {} ["a", "b"] := by decide
  have heq : (FHoudiniPresetStringValues.mk {} ["a, b"]).ToString
      = (FHoudiniPresetStringValues.mk {} ["a", "b"]).ToString := by decide
  exact ⟨hne, heq, fun hinj => hne (hinj heq)⟩

/-- C9: `ToString` of every input record is the empty string, called directly or
through the base, whatever the record holds. -/
theorem InputValue_ToString_empty {F C I T O X : Type} (SanitizeFloat : F → String)
    (v : FHoudiniPresetInputValue T O X) :
    v.ToString = "" ∧
    (PresetStruct.InputValue v : PresetStruct F C I T O X).ToString SanitizeFloat = "" :=
  ⟨rfl, rfl⟩

/-- C10: among the structs deriving from the base, `GetValueType` is `Invalid` exactly
when the dynamic type is the base itself or `FHoudiniPresetInputObject`; every input
object reports `Invalid` and an empty `ToString`; the float, int, string, float-ramp,
colour-ramp and input-record payloads never report `Invalid`. -/
theorem GetValueType_Invalid_iff {F C I T O X : Type} (SanitizeFloat : F → String) :
    (∀ s : PresetStruct F C I T O X,
      s.GetValueType = EHoudiniPresetValueType.Invalid ↔
        ((∃ b, s = PresetStruct.Base b) ∨ (∃ o, s = PresetStruct.InputObject o))) ∧
    (∀ o : FHoudiniPresetInputObject O X,
      (PresetStruct.InputObject o : PresetStruct F C I T O X).GetValueType
        = EHoudiniPresetValueType.Invalid ∧
      (PresetStruct.InputObject o : PresetStruct F C I T O X).ToString SanitizeFloat = "") ∧
    (∀ v : FHoudiniPresetFloatValues F,
      v.GetValueType ≠ EHoudiniPresetValueType.Invalid) ∧
    (∀ v : FHoudiniPresetIntValues, v.GetValueType ≠ EHoudiniPresetValueType.Invalid) ∧
    (∀ v : FHoudiniPresetStringValues, v.GetValueType ≠ EHoudiniPresetValueType.Invalid) ∧
    (∀ v : FHoudiniPresetRampFloatValues F I,
      v.GetValueType ≠ EHoudiniPresetValueType.Invalid) ∧
    (∀ v : FHoudiniPresetRampColorValues F C I,
      v.GetValueType ≠ EHoudiniPresetValueType.Invalid) ∧
    (∀ v : FHoudiniPresetInputValue T O X,
      v.GetValueType ≠ EHoudiniPresetValueType.Invalid) := by
  refine ⟨?_, fun o => ⟨rfl, rfl⟩, ?_, ?_, ?_, ?_, ?_, ?_⟩
  · intro s
    constructor
    · intro h
      cases s with
      | Base b => exact Or.inl ⟨b, rfl⟩
      | InputObject o => exact Or.inr ⟨o, rfl⟩
      | FloatValues v => exact absurd h (fun h => EHoudiniPresetValueType.noConfusion h)
      | IntValues v => exact absurd h (fun h => EHoudiniPresetValueType.noConfusion h)
      | StringValues v => exact absurd h (fun h => EHoudiniPresetValueType.noConfusion h)
      | RampFloatValues v => exact absurd h (fun h => EHoudiniPresetValueType.noConfusion h)
      | RampColorValues v => exact absurd h (fun h => EHoudiniPresetValueType.noConfusion h)
      | InputValue v => exact absurd h (fun h => EHoudiniPresetValueType.noConfusion h)
    · rintro (⟨b, rfl⟩ | ⟨o, rfl⟩) <;> rfl
  all_goals
    intro v
    simp [FHoudiniPresetFloatValues.GetValueType, FHoudiniPresetIntValues.GetValueType,
      FHoudiniPresetStringValues.GetValueType, FHoudiniPresetRampFloatValues.GetValueType,
      FHoudiniPresetRampColorValues.GetValueType, FHoudiniPresetInputValue.GetValueType]

/-! ## Lemmas on `TMap` -/

theorem TMap.findPairs_addPairs_self {V : Type} (Key : String) (Value : V)
    (l : List (String × V)) :
    TMap.findPairs Key (TMap.addPairs Key Value l) = some Value := by
  induction l with
  | nil => simp [TMap.addPairs, TMap.findPairs]
  | cons kv rest ih =>
    by_cases h : kv.1 = Key
    · simp [TMap.addPairs, TMap.findPairs, h]
    · simp [TMap.addPairs, TMap.findPairs, h, ih]

theorem TMap.findPairs_addPairs_ne {V : Type} (Key k : String) (Value : V)
    (l : List (String × V)) (hk : k ≠ Key) :
    TMap.findPairs k (TMap.addPairs Key Value l) = TMap.findPairs k l := by
  induction l with
  | nil => simp [TMap.addPairs, TMap.findPairs, Ne.symm hk]
  | cons kv rest ih =>
    by_cases h : kv.1 = Key
    · have h2 : ¬ kv.1 = k := fun e => hk (e.symm.trans h)
      simp [TMap.addPairs, TMap.findPairs, h, h2, Ne.symm hk]
    · by_cases h3 : kv.1 = k
      · simp [TMap.addPairs, TMap.findPairs, h3, hk]
      · simp [TMap.addPairs, TMap.findPairs, h, h3, ih]

theorem TMap.countP_addPairs_ne {V : Type} (Key k : String) (Value : V)
    (l : List (String × V)) (hk : k ≠ Key) :
    (TMap.addPairs Key Value l).countP (fun kv => decide (kv.1 = k))
      = l.countP (fun kv => decide (kv.1 = k)) := by
  induction l with
  | nil => simp [TMap.addPairs, Ne.symm hk]
  | cons kv rest ih =>
    by_cases h : kv.1 = Key
    · have h2 : ¬ kv.1 = k := fun e => hk (e.symm.trans h)
      simp [TMap.addPairs, h, h2, List.countP_cons, Ne.symm hk]
    · simp [TMap.addPairs, h, List.countP_cons, ih]

theorem TMap.mem_keys_addPairs {V : Type} (Key k : String) (Value : V)
    (l : List (String × V)) :
    k ∈ (TMap.addPairs Key Value l).map Prod.fst ↔ k = Key ∨ k ∈ l.map Prod.fst := by
  induction l with
  | nil => simp [TMap.addPairs]
  | cons kv rest ih =>
    by_cases h : kv.1 = Key
    · simp only [TMap.addPairs, h, if_true, List.map_cons, List.mem_cons]
      tauto
    · simp only [TMap.addPairs, h, if_false, List.map_cons, List.mem_cons, ih]
      tauto

theorem TMap.nodup_keys_addPairs {V : Type} (Key : String) (Value : V)
    (l : List (String × V)) (hl : (l.map Prod.fst).Nodup) :
    ((TMap.addPairs Key Value l).map Prod.fst).Nodup := by
  induction l with
  | nil => simp [TMap.addPairs]
  | cons kv rest ih =>
    rw [List.map_cons, List.nodup_cons] at hl
    by_cases h : kv.1 = Key
    · simp only [TMap.addPairs, h, if_true, List.map_cons, List.nodup_cons]
      exact ⟨h ▸ hl.1, hl.2⟩
    · simp only [TMap.addPairs, h, if_false, List.map_cons, List.nodup_cons]
      refine ⟨?_, ih hl.2⟩
      rw [TMap.mem_keys_addPairs]
      rintro (e | e)
      · exact h e
      · exact hl.1 e

theorem TMap.countP_addPairs_self {V : Type} (Key : String) (Value : V)
    (l : List (String × V)) (hl : (l.map Prod.fst).Nodup) :
    (TMap.addPairs Key Value l).countP (fun kv => decide (kv.1 = Key)) = 1 := by
  induction l with
  | nil => simp [TMap.addPairs]
  | cons kv rest ih =>
    rw [List.map_cons, List.nodup_cons] at hl
    by_cases h : kv.1 = Key
    · have hz : rest.countP (fun kv => decide (kv.1 = Key)) = 0 := by
        rw [List.countP_eq_zero]
        intro a ha hdec
        apply hl.1
        rw [h]
        have : a.1 = Key := by simpa using hdec
        exact this ▸ List.mem_map_of_mem Prod.fst ha
      simp [TMap.addPairs, h, List.countP_cons, hz]
    · simp [TMap.addPairs, h, List.countP_cons, ih hl.2]

theorem TMap.Add_Add_isRecapture {V : Type} (m : TMap V) (Key : String) (v1 v2 : V)
    (hm : m.Keys.Nodup) :
    m.IsRecapture Key v2 ((m.Add Key v1).Add Key v2) := by
  have h1 : ((TMap.addPairs Key v1 m.Pairs).map Prod.fst).Nodup :=
    TMap.nodup_keys_addPairs Key v1 m.Pairs hm
  refine ⟨?_, ?_, ?_, ?_⟩
  · exact TMap.countP_addPairs_self Key v2 _ h1
  · exact TMap.findPairs_addPairs_self Key v2 _
  · intro k hk
    constructor
    · show TMap.findPairs k (TMap.addPairs Key v2 (TMap.addPairs Key v1 m.Pairs)) = _
      rw [TMap.findPairs_addPairs_ne Key k v2 _ hk, TMap.findPairs_addPairs_ne Key k v1 _ hk]
      rfl
    · show (TMap.addPairs Key v2 (TMap.addPairs Key v1 m.Pairs)).countP _ = _
      rw [TMap.countP_addPairs_ne Key k v2 _ hk, TMap.countP_addPairs_ne Key k v1 _ hk]
      rfl
  · exact TMap.nodup_keys_addPairs Key v2 _ h1

/-! ## Lemmas on the Apply helpers -/

theorem writeElementwise_of_length_eq {α : Type} (vs cs : List α)
    (h : cs.length = vs.length) : writeElementwise vs cs = vs := by
  induction vs generalizing cs with
  | nil =>
    cases cs with
    | nil => rfl
    | cons c cs => simp at h
  | cons v vs ih =>
    cases cs with
    | nil => simp at h
    | cons c cs =>
      simp only [writeElementwise]
      rw [ih cs (by simpa using h)]

theorem findOptionLabel_of_mem (Label : String) (Options : List String)
    (h : Label ∈ Options) :
    ∃ i, findOptionLabel Label Options = some i ∧ Options.getD i "" = Label := by
  induction Options with
  | nil => simp at h
  | cons o os ih =>
    by_cases ho : o = Label
    · exact ⟨0, by simp [findOptionLabel, ho], by simp [ho]⟩
    · have hmem : Label ∈ os := by
        rcases List.mem_cons.mp h with e | e
        · exact absurd e.symm ho
        · exact e
      obtain ⟨i, hi, hget⟩ := ih hmem
      exact ⟨i + 1, by simp [findOptionLabel, ho, hi], by simpa using hget⟩

theorem rampFloat_points_roundtrip {float Interp : Type}
    (pts : List (RampPoint float float Interp)) :
    (pts.map (fun pt =>
        ({ Position := pt.Position, Value := pt.Value, Interpolation := pt.Interpolation } :
          FHoudiniPresetRampFloatPoint float Interp))).map
      (fun pt =>
        ({ Position := pt.Position, Value := pt.Value, Interpolation := pt.Interpolation } :
          RampPoint float float Interp)) = pts := by
  induction pts with
  | nil => rfl
  | cons pt rest ih => simp only [List.map_cons, ih]

theorem rampColor_points_roundtrip {float C Interp : Type}
    (pts : List (RampPoint float C Interp)) :
    (pts.map (fun pt =>
        ({ Position := pt.Position, Value := pt.Value, Interpolation := pt.Interpolation } :
          FHoudiniPresetRampColorPoint float C Interp))).map
      (fun pt =>
        ({ Position := pt.Position, Value := pt.Value, Interpolation := pt.Interpolation } :
          RampPoint float C Interp)) = pts := by
  induction pts with
  | nil => rfl
  | cons pt rest ih => simp only [List.map_cons, ih]

/-! ## Claims settled on the modelled helper bodies -/

/-- C3: in each of the five name-keyed mappings with unique keys, capturing a parameter
and then capturing a parameter of the same name again leaves exactly one entry for that
name, holding the payload of the second capture; every other key is as before and the
keys stay unique. -/
theorem IngestParameter_repeated_capture {float C Interp : Type} :
    (∀ (m : TMap FHoudiniPresetIntValues) (p q : IntMappingParm),
      m.Keys.Nodup → p.Name = q.Name →
      m.IsRecapture p.Name q.Payload (q.IngestParameter (p.IngestParameter m).2).2) ∧
    (∀ (m : TMap (FHoudiniPresetFloatValues float)) (p q : FloatMappingParm float),
      m.Keys.Nodup → p.Name = q.Name →
      m.IsRecapture p.Name q.Payload (q.IngestParameter (p.IngestParameter m).2).2) ∧
    (∀ (m : TMap FHoudiniPresetStringValues) (p q : StringMappingParm),
      m.Keys.Nodup → p.Name = q.Name →
      m.IsRecapture p.Name q.Payload (q.IngestParameter (p.IngestParameter m).2).2) ∧
    (∀ (m : TMap (FHoudiniPresetRampFloatValues float Interp))
      (p q : UHoudiniParameterRampFloat float Interp),
      m.Keys.Nodup → p.Name = q.Name →
      m.IsRecapture p.Name (PopulateFromRampFloat q)
        (IngestParameterRampFloat q (IngestParameterRampFloat p m).2).2) ∧
    (∀ (m : TMap (FHoudiniPresetRampColorValues float C Interp))
      (p q : UHoudiniParameterRampColor float C Interp),
      m.Keys.Nodup → p.Name = q.Name →
      m.IsRecapture p.Name (PopulateFromRampColor q)
        (IngestParameterRampColor q (IngestParameterRampColor p m).2).2) := by
  refine ⟨?_, ?_, ?_, ?_, ?_⟩
  · intro m p q hm hn
    cases p <;> cases q <;>
      simp only [IntMappingParm.Name] at hn <;>
      simp only [IntMappingParm.IngestParameter, IntMappingParm.Name, IntMappingParm.Payload,
        IngestParameterInt, IngestParameterChoiceInt, IngestParameterToggle, ← hn] <;>
      exact TMap.Add_Add_isRecapture m _ _ _ hm
  · intro m p q hm hn
    cases p <;> cases q <;>
      simp only [FloatMappingParm.Name] at hn <;>
      simp only [FloatMappingParm.IngestParameter, FloatMappingParm.Name,
        FloatMappingParm.Payload, IngestParameterFloat, IngestParameterColor, ← hn] <;>
      exact TMap.Add_Add_isRecapture m _ _ _ hm
  · intro m p q hm hn
    cases p <;> cases q <;>
      simp only [StringMappingParm.Name] at hn <;>
      simp only [StringMappingParm.IngestParameter, StringMappingParm.Name,
        StringMappingParm.Payload, IngestParameterString, IngestParameterFile,
        IngestParameterChoiceString, ← hn] <;>
      exact TMap.Add_Add_isRecapture m _ _ _ hm
  · intro m p q hm hn
    simp only [IngestParameterRampFloat, ← hn]
    exact TMap.Add_Add_isRecapture m _ _ _ hm
  · intro m p q hm hn
    simp only [IngestParameterRampColor, ← hn]
    exact TMap.Add_Add_isRecapture m _ _ _ hm

/-- C3 at a concrete mapping: `IntParameters` holds `a` and `tx`; an int parameter `tx`
and then a toggle `tx` are captured. -/
theorem IngestParameter_repeated_capture_witness :
    (TMap.mk [("a", FHoudiniPresetIntValues.mk {} [7]),
        ("tx", FHoudiniPresetIntValues.mk {} [0])]).Keys.Nodup ∧
    (TMap.mk [("a", FHoudiniPresetIntValues.mk {} [7]),
        ("tx", FHoudiniPresetIntValues.mk {} [0])]).IsRecapture "tx"
      (FHoudiniPresetIntValues.mk {} [1])
      (TMap.mk [("a", FHoudiniPresetIntValues.mk {} [7]),
        ("tx", FHoudiniPresetIntValues.mk {} [1])]) :=
  ⟨by decide,
   (@IngestParameter_repeated_capture Nat Nat Nat).1
     (TMap.mk [("a", FHoudiniPresetIntValues.mk {} [7]),
        ("tx", FHoudiniPresetIntValues.mk {} [0])])
     (IntMappingParm.ofInt ⟨"tx", [1, 2]⟩)
     (IntMappingParm.ofToggle ⟨"tx", true⟩)
     (by decide) rfl⟩

/-- C1 (as stated, at concrete inputs): a choice captured as label `Stone` and applied to
a choice parameter of the same kind and component count whose options are `Wood`,
`Metal` leaves the target exposing `Wood`; a choice captured as index 2 and applied to a
choice parameter with two options leaves the target exposing index 1. -/
theorem roundtrip_choice_fails :
    (IngestParameterChoiceString ⟨"material", ["Wood", "Stone", "Metal"], 1⟩ ⟨[]⟩).2.Find
        "material" = some (FHoudiniPresetStringValues.mk {} ["Stone"]) ∧
    (UHoudiniParameterChoice.mk "material" ["Wood", "Stone", "Metal"] 1).SelectedLabel
      = "Stone" ∧
    (ApplyPresetParameterValuesChoiceString (FHoudiniPresetStringValues.mk {} ["Stone"])
        ⟨"material", ["Wood", "Metal"], 0⟩).SelectedLabel = "Wood" ∧
    (IngestParameterChoiceInt ⟨"material", ["Wood", "Stone", "Metal"], 2⟩ ⟨[]⟩).2.Find
        "material" = some (FHoudiniPresetIntValues.mk {} [2]) ∧
    (ApplyPresetParameterValuesChoiceInt (FHoudiniPresetIntValues.mk {} [2])
        ⟨"material", ["Wood", "Metal"], 0⟩).SelectedIndex = 1 ∧
    (ApplyPresetParameterValuesChoiceString (FHoudiniPresetStringValues.mk {} ["Stone"])
        ⟨"material", ["Wood", "Metal"], 0⟩).SelectedLabel
      ≠ (UHoudiniParameterChoice.mk "material" ["Wood", "Stone", "Metal"] 1).SelectedLabel ∧
    (ApplyPresetParameterValuesChoiceInt (FHoudiniPresetIntValues.mk {} [2])
        ⟨"material", ["Wood", "Metal"], 0⟩).SelectedIndex
      ≠ (UHoudiniParameterChoice.mk "material" ["Wood", "Stone", "Metal"] 2).SelectedIndex := by
  decide

/-- C1 (amended): for each supported kind, capturing a live parameter `p` into a mapping
and applying the payload stored under its name to a parameter `t` of the same kind and
component count leaves `t` exposing the values `p` exposed, provided that for a choice
captured as index the index is valid for the options of `t`, and for a choice captured as
label the label is among the options of `t`. -/
theorem Apply_Ingest_roundtrip {float C Interp : Type} :
    (∀ (p t : UHoudiniParameterInt) (m : TMap FHoudiniPresetIntValues),
      t.Values.length = p.Values.length →
      ∃ v, (IngestParameterInt p m).2.Find p.Name = some v ∧
        (ApplyPresetParameterValuesInt v t).Values = p.Values) ∧
    (∀ (p t : UHoudiniParameterChoice) (m : TMap FHoudiniPresetIntValues),
      0 ≤ p.SelectedIndex → p.SelectedIndex < (t.Options.length : Int) →
      ∃ v, (IngestParameterChoiceInt p m).2.Find p.Name = some v ∧
        (ApplyPresetParameterValuesChoiceInt v t).SelectedIndex = p.SelectedIndex) ∧
    (∀ (p t : UHoudiniParameterToggle) (m : TMap FHoudiniPresetIntValues),
      ∃ v, (IngestParameterToggle p m).2.Find p.Name = some v ∧
        (ApplyPresetParameterValuesToggle v t).Value = p.Value) ∧
    (∀ (p t : UHoudiniParameterFloat float) (m : TMap (FHoudiniPresetFloatValues float)),
      t.Values.length = p.Values.length →
      ∃ v, (IngestParameterFloat p m).2.Find p.Name = some v ∧
        (ApplyPresetParameterValuesFloat v t).Values = p.Values) ∧
    (∀ (p t : UHoudiniParameterColor float) (m : TMap (FHoudiniPresetFloatValues float)),
      t.Channels.length = p.Channels.length →
      ∃ v, (IngestParameterColor p m).2.Find p.Name = some v ∧
        (ApplyPresetParameterValuesColor v t).Channels = p.Channels) ∧
    (∀ (p t : UHoudiniParameterString) (m : TMap FHoudiniPresetStringValues),
      t.Values.length = p.Values.length →
      ∃ v, (IngestParameterString p m).2.Find p.Name = some v ∧
        (ApplyPresetParameterValuesString v t).Values = p.Values) ∧
    (∀ (p t : UHoudiniParameterFile) (m : TMap FHoudiniPresetStringValues),
      t.Values.length = p.Values.length →
      ∃ v, (IngestParameterFile p m).2.Find p.Name = some v ∧
        (ApplyPresetParameterValuesFile v t).Values = p.Values) ∧
    (∀ (p t : UHoudiniParameterChoice) (m : TMap FHoudiniPresetStringValues),
      p.SelectedLabel ∈ t.Options →
      ∃ v, (IngestParameterChoiceString p m).2.Find p.Name = some v ∧
        (ApplyPresetParameterValuesChoiceString v t).SelectedLabel = p.SelectedLabel) ∧
    (∀ (p t : UHoudiniParameterRampFloat float Interp)
      (m : TMap (FHoudiniPresetRampFloatValues float Interp)),
      ∃ v, (IngestParameterRampFloat p m).2.Find p.Name = some v ∧
        (ApplyPresetParameterValuesRampFloat v t).Points = p.Points) ∧
    (∀ (p t : UHoudiniParameterRampColor float C Interp)
      (m : TMap (FHoudiniPresetRampColorValues float C Interp)),
      ∃ v, (IngestParameterRampColor p m).2.Find p.Name = some v ∧
        (ApplyPresetParameterValuesRampColor v t).Points = p.Points) := by
  refine ⟨?_, ?_, ?_, ?_, ?_, ?_, ?_, ?_, ?_, ?_⟩
  · intro p t m h
    exact ⟨_, TMap.findPairs_addPairs_self _ _ _,
      writeElementwise_of_length_eq p.Values t.Values h⟩
  · intro p t m h0 h1
    refine ⟨_, TMap.findPairs_addPairs_self _ _ _, ?_⟩
    show max 0 (min p.SelectedIndex ((t.Options.length : Int) - 1)) = p.SelectedIndex
    omega
  · intro p t m
    refine ⟨_, TMap.findPairs_addPairs_self _ _ _, ?_⟩
    show decide ((if p.Value = true then (1 : Int) else 0) ≠ 0) = p.Value
    cases p.Value <;> simp
  · intro p t m h
    exact ⟨_, TMap.findPairs_addPairs_self _ _ _,
      writeElementwise_of_length_eq p.Values t.Values h⟩
  · intro p t m h
    exact ⟨_, TMap.findPairs_addPairs_self _ _ _,
      writeElementwise_of_length_eq p.Channels t.Channels h⟩
  · intro p t m h
    exact ⟨_, TMap.findPairs_addPairs_self _ _ _,
      writeElementwise_of_length_eq p.Values t.Values h⟩
  · intro p t m h
    exact ⟨_, TMap.findPairs_addPairs_self _ _ _,
      writeElementwise_of_length_eq p.Values t.Values h⟩
  · intro p t m h
    refine ⟨_, TMap.findPairs_addPairs_self _ _ _, ?_⟩
    obtain ⟨i, hi, hget⟩ := findOptionLabel_of_mem _ _ h
    simp only [ApplyPresetParameterValuesChoiceString, PopulateFromChoiceLabel, hi]
    simp only [UHoudiniParameterChoice.SelectedLabel] at hget ⊢
    simpa using hget
  · intro p t m
    exact ⟨_, TMap.findPairs_addPairs_self _ _ _, rampFloat_points_roundtrip p.Points⟩
  · intro p t m
    exact ⟨_, TMap.findPairs_addPairs_self _ _ _, rampColor_points_roundtrip p.Points⟩

/-- C1 (amended) at concrete inputs: a two-component int parameter, and the choice
`Stone` applied to a choice parameter whose options are `Wood`, `Stone`, `Metal`. -/
theorem Apply_Ingest_roundtrip_witness :
    ((UHoudiniParameterInt.mk "size" [0, 0]).Values.length
        = (UHoudiniParameterInt.mk "size" [3, -4]).Values.length ∧
      ∃ v, (IngestParameterInt ⟨"size", [3, -4]⟩ ⟨[]⟩).2.Find "size" = some v ∧
        (ApplyPresetParameterValuesInt v ⟨"size", [0, 0]⟩).Values = [3, -4]) ∧
    ((UHoudiniParameterChoice.mk "material" ["Stone", "Sand"] 0).SelectedLabel
        ∈ ["Wood", "Stone", "Metal"] ∧
      ∃ v, (IngestParameterChoiceString ⟨"material", ["Stone", "Sand"], 0⟩ ⟨[]⟩).2.Find
          "material" = some v ∧
        (ApplyPresetParameterValuesChoiceString v
          ⟨"material", ["Wood", "Stone", "Metal"], 0⟩).SelectedLabel
          = (UHoudiniParameterChoice.mk "material" ["Stone", "Sand"] 0).SelectedLabel) :=
  ⟨⟨by decide,
    (@Apply_Ingest_roundtrip Nat Nat Nat).1 ⟨"size", [3, -4]⟩ ⟨"size", [0, 0]⟩ ⟨[]⟩
      (by decide)⟩,
   ⟨by decide,
    (@Apply_Ingest_roundtrip Nat Nat Nat).2.2.2.2.2.2.2.1 ⟨"material", ["Stone", "Sand"], 0⟩
      ⟨"material", ["Wood", "Stone", "Metal"], 0⟩ ⟨[]⟩ (by decide)⟩⟩

end HoudiniPreset
